import Mathlib

/-!
Shallow embedding of the Ethereum/SUI wallet HTTP API (src/index.js, with the
legacy signing server in src/main.js).

Each Express route handler is embedded as a total Lean function from its query
parameters (each an `Option String`: `none` models an absent query parameter)
to an HTTP response paired with the list of capability-provider calls the
handler performed.  The third-party cryptography libraries (ethers, @mysten/sui,
bip39) are external collaborators; they are modelled as provider records whose
operations return `Except String _` — `.error msg` models a thrown JS exception
carrying `err.message`, exactly what a `catch (error)` block receives.
-/

/-- JS truthiness of a query parameter: `!x` is true when the parameter is
absent (`undefined`) or the empty string.  `truthy p = true` iff `!p` is false
in the handler's guard. -/
def truthy : Option String → Bool
  | none => false
  | some s => s != ""

/-- The string value of a parameter, consulted only after the truthiness
guard has passed. -/
def getStr : Option String → String
  | none => ""
  | some s => s

/-- One call into the external cryptography capability provider. -/
inductive CapCall where
  | mkWallet (key : String)
  | walletSign (address message : String)
  | verifyMsg (message signature : String)
  | computePubKey (key : String)
  | genMnemonic
  | hdDerive (mnemonic : String)
  | createRandomWallet
  | edNewKeypair
  | edFromSecretKey (bytes : List Nat)
deriving DecidableEq, Repr

deriving instance DecidableEq for Except

/-- A JSON response: HTTP status plus either a success payload (`.ok`) or the
`error` string of the `{success:false, error}` envelope (`.error`). -/
structure ApiResponse (α : Type) where
  status : Nat
  body : Except String α
deriving DecidableEq, Repr

/-- The `success` field of the JSON envelope: `true` exactly on the success
payload branch. -/
def ApiResponse.success {α : Type} (r : ApiResponse α) : Bool :=
  match r.body with
  | .ok _ => true
  | .error _ => false

/-- Payload of a successful `/sign` response. -/
structure SignData where
  address : String
  message : String
  signature : String
deriving DecidableEq, Repr

/-- Payload of a successful `/verify` response. -/
structure VerifyData where
  recoveredAddress : String
  message : String
  isValid : Bool
deriving DecidableEq, Repr

/-- Payload of a successful `/generate-eth` response. -/
structure GenEthData where
  address : String
  privateKey : String
  mnemonic : String
  publicKey : String
  derivationPath : String
deriving DecidableEq, Repr

/-- Payload of a successful `/generate-sui` response. -/
structure GenSuiData where
  address : String
  privateKey : String
  publicKey : String
  keyType : String
deriving DecidableEq, Repr

/-- Payload of a successful `/eth-key-to-wallet` response. -/
structure EthKeyData where
  address : String
  privateKey : String
  publicKey : String
  compressedPublicKey : String
deriving DecidableEq, Repr

/-- Payload of a successful `/sui-key-to-address` response. -/
structure SuiKeyData where
  address : String
  publicKey : String
  privateKey : String
  keyType : String
deriving DecidableEq, Repr

/-- An `ethers.Wallet` object: its `address`, its `publicKey`, and its
`signMessage` operation (which may throw). -/
structure Wallet where
  address : String
  publicKey : String
  sign : String → Except String String

/-- The ethers capability provider: `new ethers.Wallet(key)` (throws on a
malformed key), `ethers.verifyMessage(message, signature)` (throws on a
malformed signature, otherwise recovers an address), and
`ethers.SigningKey.computePublicKey(key, true)`. -/
structure EthProvider where
  mkWallet : String → Except String Wallet
  verifyMessage : String → String → Except String String
  computePublicKey : String → Except String String

/-- An Ed25519 keypair from @mysten/sui: its raw secret-key bytes, its Sui
address, and its base64 public key. -/
structure SuiKeypair where
  secretKeyBytes : List Nat
  address : String
  pubKeyB64 : String
deriving DecidableEq, Repr

/-- The @mysten/sui capability provider used by `/sui-key-to-address`:
`Ed25519Keypair.fromSecretKey(bytes)`. -/
structure SuiProvider where
  fromSecretKey : List Nat → Except String SuiKeypair

/-- The wallet record returned by ethers HD derivation or
`ethers.Wallet.createRandom()`. -/
structure EthWalletInfo where
  address : String
  privateKey : String
  publicKey : String
deriving DecidableEq, Repr

/-- The external calls made by `/generate-eth`, as oracles for one request:
the first `bip39.generateMnemonic()`, the HD derivation from that mnemonic at
the standard path, the fallback `bip39.generateMnemonic()`, and the fallback
`ethers.Wallet.createRandom()`. -/
structure GenProvider where
  mnemonic1 : Except String String
  hdDerive : String → Except String EthWalletInfo
  mnemonic2 : Except String String
  randomWallet : Except String EthWalletInfo

/- Fixed response strings of src/index.js. -/

def signReqErr : String := "Private key and message are required"
def signErr : String := "Error signing message. Please ensure the private key is valid."
def verifyReqErr : String := "Message and signature are required"
def verifyErr : String := "Error verifying signature"
def genEthErr : String := "Error generating ETH wallet"
def genSuiErr : String := "Error generating SUI wallet"
def keyReqErr : String := "Private key is required"
def suiKeyLenErr : String := "Invalid private key length. Expected 64 hex characters for Ed25519."
def suiConvErr : String := "Error converting SUI private key. Please ensure the private key is valid."
def ethKeyLenErr : String := "Invalid private key format. Expected 64 hex characters (with or without 0x prefix)."
def ethConvErr : String := "Error converting ETH private key. Please ensure the private key is valid."

/-- The standard Ethereum derivation path string of `/generate-eth`
(`\x27` is the ASCII apostrophe). -/
def stdDerivationPath : String := "m/44\x27/60\x27/0\x27/0/0"

/-- The `/sign` handler (src/index.js lines 23-59). -/
def signHandler (P : EthProvider) (key message : Option String) :
    ApiResponse SignData × List CapCall :=
  if !(truthy key) || !(truthy message) then
    (⟨400, .error signReqErr⟩, [])
  else
    match P.mkWallet (getStr key) with
    | .error _ => (⟨500, .error signErr⟩, [.mkWallet (getStr key)])
    | .ok w =>
      match w.sign (getStr message) with
      | .error _ =>
        (⟨500, .error signErr⟩,
         [.mkWallet (getStr key), .walletSign w.address (getStr message)])
      | .ok sig =>
        (⟨200, .ok ⟨w.address, getStr message, sig⟩⟩,
         [.mkWallet (getStr key), .walletSign w.address (getStr message)])

/-- The `/verify` handler (src/index.js lines 62-91). -/
def verifyHandler (P : EthProvider) (message signature : Option String) :
    ApiResponse VerifyData × List CapCall :=
  if !(truthy message) || !(truthy signature) then
    (⟨400, .error verifyReqErr⟩, [])
  else
    match P.verifyMessage (getStr message) (getStr signature) with
    | .error _ =>
      (⟨500, .error verifyErr⟩, [.verifyMsg (getStr message) (getStr signature)])
    | .ok addr =>
      (⟨200, .ok ⟨addr, getStr message, true⟩⟩,
       [.verifyMsg (getStr message) (getStr signature)])

/-- The fallback branch of `/generate-eth` (src/index.js lines 119-140): a
fresh mnemonic, then `ethers.Wallet.createRandom()`; a second failure yields
the 500 error. -/
def ethFallback (G : GenProvider) (tr : List CapCall) :
    ApiResponse GenEthData × List CapCall :=
  match G.mnemonic2 with
  | .error _ => (⟨500, .error genEthErr⟩, tr ++ [.genMnemonic])
  | .ok m2 =>
    match G.randomWallet with
    | .error _ => (⟨500, .error genEthErr⟩, tr ++ [.genMnemonic, .createRandomWallet])
    | .ok rw =>
      (⟨200, .ok ⟨rw.address, rw.privateKey, m2, rw.publicKey, "random"⟩⟩,
       tr ++ [.genMnemonic, .createRandomWallet])

/-- The `/generate-eth` handler (src/index.js lines 94-142). -/
def generateEthHandler (G : GenProvider) : ApiResponse GenEthData × List CapCall :=
  match G.mnemonic1 with
  | .error _ => ethFallback G [.genMnemonic]
  | .ok m =>
    match G.hdDerive m with
    | .error _ => ethFallback G [.genMnemonic, .hdDerive m]
    | .ok w =>
      (⟨200, .ok ⟨w.address, w.privateKey, m, w.publicKey, stdDerivationPath⟩⟩,
       [.genMnemonic, .hdDerive m])

/-- Lowercase hex digit of a value below 16 (Node `Buffer.toString('hex')`
digit alphabet). -/
def hexDigitChar (n : Nat) : Char :=
  if n < 10 then Char.ofNat (48 + n) else Char.ofNat (97 + (n - 10))

/-- Hex encoding of a byte list, two lowercase digits per byte, as produced by
`Buffer.from(bytes).toString('hex')`. -/
def hexEncodeChars : List Nat → List Char
  | [] => []
  | b :: bs => hexDigitChar (b % 256 / 16) :: hexDigitChar (b % 16) :: hexEncodeChars bs

/-- String form of `hexEncodeChars`. -/
def hexEncode (bs : List Nat) : String := String.mk (hexEncodeChars bs)

/-- The `/generate-sui` handler (src/index.js lines 145-174): the oracle is
the result of `new Ed25519Keypair()`; the returned private key is the hex
encoding of the first 32 secret-key bytes (`privateKeyBytes.slice(0, 32)`). -/
def generateSuiHandler (gen : Except String SuiKeypair) :
    ApiResponse GenSuiData × List CapCall :=
  match gen with
  | .error _ => (⟨500, .error genSuiErr⟩, [.edNewKeypair])
  | .ok kp =>
    (⟨200, .ok ⟨kp.address, hexEncode (kp.secretKeyBytes.take 32), kp.pubKeyB64, "Ed25519"⟩⟩,
     [.edNewKeypair])

/-- Remove the first occurrence of `pat` from a character list — the semantics
of JS `String.replace(pat, "")` with a string pattern. -/
def removeFirstSub (pat : List Char) : List Char → List Char
  | [] => []
  | c :: cs =>
    if pat.isPrefixOf (c :: cs) then (c :: cs).drop pat.length
    else c :: removeFirstSub pat cs

/-- The JS replace step of src/index.js line 189 (`privateKey.replace` with
pattern `0x` and empty replacement): removes the first occurrence of the
substring `0x`, wherever it appears. -/
def replaceFirstOx (s : String) : String :=
  String.mk (removeFirstSub ['0', 'x'] s.toList)

/-- Numeric value of a hex digit character, or `none`. -/
def hexVal (c : Char) : Option Nat :=
  if 48 ≤ c.toNat ∧ c.toNat ≤ 57 then some (c.toNat - 48)
  else if 97 ≤ c.toNat ∧ c.toNat ≤ 102 then some (c.toNat - 87)
  else if 65 ≤ c.toNat ∧ c.toNat ≤ 70 then some (c.toNat - 55)
  else none

/-- Node `Buffer.from(str, 'hex')`: consume two hex digits per byte, stopping
at the first invalid pair. -/
def hexDecodePairs : List Char → List Nat
  | c1 :: c2 :: rest =>
    match hexVal c1, hexVal c2 with
    | some h, some l => (16 * h + l) :: hexDecodePairs rest
    | _, _ => []
  | _ => []

/-- String form of `hexDecodePairs`. -/
def hexDecodeNode (s : String) : List Nat := hexDecodePairs s.toList

/-- The `/sui-key-to-address` handler (src/index.js lines 177-224). -/
def suiKeyToAddressHandler (P : SuiProvider) (privateKey : Option String) :
    ApiResponse SuiKeyData × List CapCall :=
  if !(truthy privateKey) then
    (⟨400, .error keyReqErr⟩, [])
  else
    let clean := replaceFirstOx (getStr privateKey)
    if clean.length ≠ 64 then
      (⟨400, .error suiKeyLenErr⟩, [])
    else
      match P.fromSecretKey (hexDecodeNode clean) with
      | .error _ =>
        (⟨500, .error suiConvErr⟩, [.edFromSecretKey (hexDecodeNode clean)])
      | .ok kp =>
        (⟨200, .ok ⟨kp.address, kp.pubKeyB64, clean, "Ed25519"⟩⟩,
         [.edFromSecretKey (hexDecodeNode clean)])

/-- The JS startsWith test for the `0x` prefix, computed on the character
list. -/
def startsWithOx (s : String) : Bool := ['0', 'x'].isPrefixOf s.toList

/-- Key normalization of `/eth-key-to-wallet` (src/index.js line 239): keep a
`0x`-prefixed key as is, otherwise put `0x` in front. -/
def normalizeEthKey (s : String) : String :=
  if startsWithOx s then s else "0x" ++ s

/-- The `/eth-key-to-wallet` handler (src/index.js lines 227-272). -/
def ethKeyToWalletHandler (P : EthProvider) (privateKey : Option String) :
    ApiResponse EthKeyData × List CapCall :=
  if !(truthy privateKey) then
    (⟨400, .error keyReqErr⟩, [])
  else
    let clean := normalizeEthKey (getStr privateKey)
    if clean.length ≠ 66 then
      (⟨400, .error ethKeyLenErr⟩, [])
    else
      match P.mkWallet clean with
      | .error _ => (⟨500, .error ethConvErr⟩, [.mkWallet clean])
      | .ok w =>
        match P.computePublicKey clean with
        | .error _ => (⟨500, .error ethConvErr⟩, [.mkWallet clean, .computePubKey clean])
        | .ok cpk =>
          (⟨200, .ok ⟨w.address, clean, w.publicKey, cpk⟩⟩,
           [.mkWallet clean, .computePubKey clean])

/-- Error body of the legacy `/sign` server (src/main.js): its 500 response
carries a `details` field holding `err.message`, the 400 response does not. -/
structure MainErrBody where
  error : String
  details : Option String
deriving DecidableEq, Repr

/-- Response of the legacy `/sign` server (src/main.js): success body is
`{address, signature}`. -/
structure MainResponse where
  status : Nat
  body : Except MainErrBody (String × String)
deriving DecidableEq, Repr

/-- The `/sign` handler of the legacy server (src/main.js lines 6-18). -/
def mainSignHandler (P : EthProvider) (key message : Option String) : MainResponse :=
  if !(truthy key) || !(truthy message) then
    ⟨400, .error ⟨"Missing key or message", none⟩⟩
  else
    match P.mkWallet (getStr key) with
    | .error e => ⟨500, .error ⟨"Invalid key or signing error", some e⟩⟩
    | .ok w =>
      match w.sign (getStr message) with
      | .error e => ⟨500, .error ⟨"Invalid key or signing error", some e⟩⟩
      | .ok sig => ⟨200, .ok (w.address, sig)⟩

/-! ## Concrete providers used to instantiate the abstract theorems -/

/-- A toy wallet whose address is its key and whose signatures are the key
itself; used to exercise the handler theorems on concrete inputs. -/
def toyWallet (k : String) : Wallet := ⟨k, "pub" ++ k, fun _ => .ok k⟩

/-- A toy ethers provider: rejects only the empty key, recovers the signature
string itself as the address. -/
def toyProvider : EthProvider where
  mkWallet k := if k = "" then .error "empty key" else .ok (toyWallet k)
  verifyMessage _ s := .ok s
  computePublicKey k := .ok ("cpub" ++ k)

/-- A toy Sui provider that accepts any secret-key bytes. -/
def toySuiProvider : SuiProvider where
  fromSecretKey bs := .ok ⟨bs, "0xaddr", "pubB64"⟩

/-- A provider on which every capability call throws, with a fixed
exception message. -/
def failProvider : EthProvider where
  mkWallet _ := .error "secret-detail"
  verifyMessage _ _ := .error "secret-detail"
  computePublicKey _ := .error "secret-detail"

/-- Like `failProvider` but with a different exception message. -/
def failProvider2 : EthProvider where
  mkWallet _ := .error "other-detail"
  verifyMessage _ _ := .error "other-detail"
  computePublicKey _ := .error "other-detail"

/-! ## Library contracts for the sign/verify round trip

ethers guarantees that `verifyMessage(m, wallet.signMessage(m))` recovers
`wallet.address` (EIP-191 personal-message signing followed by public-key
recovery), and that produced signatures are nonempty hex strings.  The
handlers treat the library as an external collaborator, so these contracts
are hypotheses of the round-trip theorem. -/

/-- The provider satisfies the ethers sign/recover round-trip contract. -/
def RoundTrip (P : EthProvider) : Prop :=
  ∀ k w m sig, P.mkWallet k = .ok w → w.sign m = .ok sig →
    P.verifyMessage m sig = .ok w.address

/-- Signatures produced by the provider are nonempty strings. -/
def SigNonempty (P : EthProvider) : Prop :=
  ∀ k w m sig, P.mkWallet k = .ok w → w.sign m = .ok sig → sig ≠ ""

theorem toyProvider_roundtrip : RoundTrip toyProvider := by
  intro k w m sig hw hs
  simp only [toyProvider] at hw ⊢
  split at hw
  · exact absurd hw (by simp)
  · injection hw with hw
    subst hw
    simp only [toyWallet] at hs ⊢
    injection hs with hs
    subst hs
    rfl

theorem toyProvider_signonempty : SigNonempty toyProvider := by
  intro k w m sig hw hs
  simp only [toyProvider] at hw
  split at hw
  · exact absurd hw (by simp)
  · rename_i hk
    injection hw with hw
    subst hw
    simp only [toyWallet] at hs
    injection hs with hs
    subst hs
    exact hk

/-- C1: signing a message `m` with a valid key `k` through `/sign` and then
passing the resulting signature and `m` to `/verify` yields a
`recoveredAddress` equal to the `address` field returned by `/sign`, for any
provider satisfying the ethers round-trip contract. -/
theorem sign_then_verify (P : EthProvider) (hRT : RoundTrip P) (hNE : SigNonempty P)
    (k m : String) (d : SignData)
    (h : (signHandler P (some k) (some m)).fst.body = .ok d) :
    ∃ v : VerifyData,
      (verifyHandler P (some m) (some d.signature)).fst.body = .ok v ∧
      v.recoveredAddress = d.address := by
  unfold signHandler at h
  split at h
  · simp at h
  · rename_i hguard
    have hm : m ≠ "" := by
      intro hm0
      apply hguard
      subst hm0
      simp [truthy]
    cases hw : P.mkWallet (getStr (some k)) with
    | error e => rw [hw] at h; simp at h
    | ok w =>
      rw [hw] at h
      dsimp only at h
      cases hs : w.sign (getStr (some m)) with
      | error e => rw [hs] at h; simp at h
      | ok sig =>
        rw [hs] at h
        dsimp only [getStr] at h
        injection h with h
        subst h
        have hw' : P.mkWallet k = .ok w := by simpa [getStr] using hw
        have hs' : w.sign m = .ok sig := by simpa [getStr] using hs
        have hsig : sig ≠ "" := hNE k w m sig hw' hs'
        have hv : P.verifyMessage m sig = .ok w.address := hRT k w m sig hw' hs'
        refine ⟨⟨w.address, m, true⟩, ?_, rfl⟩
        unfold verifyHandler
        simp [truthy, getStr, hsig, hv, hm]

/-- Witness for C1 at the toy provider, key `k1`, message `hello`. -/
theorem sign_then_verify_witness :
    ∃ v : VerifyData,
      (verifyHandler toyProvider (some "hello")
          (some (SignData.signature ⟨"k1", "hello", "k1"⟩))).fst.body = .ok v ∧
      v.recoveredAddress = SignData.address ⟨"k1", "hello", "k1"⟩ :=
  sign_then_verify toyProvider toyProvider_roundtrip toyProvider_signonempty
    "k1" "hello" ⟨"k1", "hello", "k1"⟩ (by decide)

/-- C2: every success body of `/verify` carries `isValid = true`, and a
recovery failure on present parameters yields status 500 with
`success:false`; the handler is a total function, so no input crashes it. -/
theorem verify_success_isValid (P : EthProvider) (message signature : Option String) :
    (∀ v, (verifyHandler P message signature).fst.body = .ok v → v.isValid = true) ∧
    (∀ e, truthy message = true → truthy signature = true →
      P.verifyMessage (getStr message) (getStr signature) = .error e →
      (verifyHandler P message signature).fst.status = 500 ∧
      (verifyHandler P message signature).fst.success = false) := by
  constructor
  · intro v hv
    unfold verifyHandler at hv
    split at hv
    · simp at hv
    · cases hr : P.verifyMessage (getStr message) (getStr signature) with
      | error e => rw [hr] at hv; simp at hv
      | ok addr =>
        rw [hr] at hv
        dsimp only at hv
        injection hv with hv
        subst hv
        rfl
  · intro e hm hs he
    unfold verifyHandler
    simp [hm, hs, he, ApiResponse.success]

/-- Witness for C2: a success body with `isValid = true` at the toy provider,
and a 500 `success:false` response at the always-failing provider. -/
theorem verify_success_isValid_witness :
    VerifyData.isValid ⟨"s", "m", true⟩ = true ∧
    ((verifyHandler failProvider (some "m") (some "s")).fst.status = 500 ∧
     (verifyHandler failProvider (some "m") (some "s")).fst.success = false) :=
  ⟨(verify_success_isValid toyProvider (some "m") (some "s")).1 ⟨"s", "m", true⟩ (by decide),
   (verify_success_isValid failProvider (some "m") (some "s")).2 "secret-detail"
     (by decide) (by decide) (by decide)⟩

/-- HD derivation of `/generate-eth` succeeded: the first mnemonic was
produced and derivation at the standard path from it succeeded. -/
def HdOk (G : GenProvider) : Prop :=
  ∃ m w, G.mnemonic1 = .ok m ∧ G.hdDerive m = .ok w

/-- The random-wallet fallback of `/generate-eth` succeeded. -/
def FallbackOk (G : GenProvider) : Prop :=
  ∃ m2 rw, G.mnemonic2 = .ok m2 ∧ G.randomWallet = .ok rw

theorem ethFallback_cases (G : GenProvider) (tr : List CapCall) :
    (∃ m2 rw, G.mnemonic2 = .ok m2 ∧ G.randomWallet = .ok rw ∧
      (ethFallback G tr).fst =
        ⟨200, .ok ⟨rw.address, rw.privateKey, m2, rw.publicKey, "random"⟩⟩) ∨
    (¬ FallbackOk G ∧ (ethFallback G tr).fst.status = 500 ∧
      (ethFallback G tr).fst.success = false) := by
  cases h2 : G.mnemonic2 with
  | error e2 =>
    right
    refine ⟨?_, ?_, ?_⟩
    · rintro ⟨m2, rw0, hm2, _⟩
      rw [h2] at hm2
      exact Except.noConfusion hm2
    · simp [ethFallback, h2]
    · simp [ethFallback, h2, ApiResponse.success]
  | ok m2 =>
    cases h3 : G.randomWallet with
    | error e3 =>
      right
      refine ⟨?_, ?_, ?_⟩
      · rintro ⟨m2', rw0, _, hrw⟩
        rw [h3] at hrw
        exact Except.noConfusion hrw
      · simp [ethFallback, h2, h3]
      · simp [ethFallback, h2, h3, ApiResponse.success]
    | ok rw0 =>
      left
      exact ⟨m2, rw0, rfl, rfl, by simp [ethFallback, h2, h3]⟩

/-- C3: `/generate-eth` answers in exactly one of three ways: success with the
standard derivation path when HD derivation succeeds; success with
`derivationPath = "random"` whose wallet fields come from the independent
`createRandom` oracle and whose mnemonic is the freshly generated fallback
mnemonic, when HD derivation fails but the fallback succeeds; or a 500 error
with `success:false` when the fallback also fails. -/
theorem generateEth_trichotomy (G : GenProvider) :
    (HdOk G ∧ ∃ d, (generateEthHandler G).fst = ⟨200, .ok d⟩ ∧
       d.derivationPath = stdDerivationPath) ∨
    (¬ HdOk G ∧ ∃ m2 rw d, G.mnemonic2 = .ok m2 ∧ G.randomWallet = .ok rw ∧
       (generateEthHandler G).fst = ⟨200, .ok d⟩ ∧ d.derivationPath = "random" ∧
       d.address = rw.address ∧ d.privateKey = rw.privateKey ∧
       d.publicKey = rw.publicKey ∧ d.mnemonic = m2) ∨
    (¬ HdOk G ∧ ¬ FallbackOk G ∧
       (generateEthHandler G).fst.status = 500 ∧
       (generateEthHandler G).fst.success = false) := by
  by_cases hhd : HdOk G
  · left
    obtain ⟨m, w, hm, hw⟩ := hhd
    refine ⟨⟨m, w, hm, hw⟩,
      ⟨w.address, w.privateKey, m, w.publicKey, stdDerivationPath⟩, ?_, rfl⟩
    simp [generateEthHandler, hm, hw]
  · have hfall : ∃ tr, generateEthHandler G = ethFallback G tr := by
      cases h1 : G.mnemonic1 with
      | error e => exact ⟨[.genMnemonic], by simp [generateEthHandler, h1]⟩
      | ok m =>
        cases hd : G.hdDerive m with
        | error e =>
          exact ⟨[.genMnemonic, .hdDerive m], by simp [generateEthHandler, h1, hd]⟩
        | ok w => exact absurd ⟨m, w, h1, hd⟩ hhd
    obtain ⟨tr, hE⟩ := hfall
    rcases ethFallback_cases G tr with ⟨m2, rw0, hm2, hrw, hres⟩ | ⟨hfb, h5, hs⟩
    · right; left
      exact ⟨hhd, m2, rw0, ⟨rw0.address, rw0.privateKey, m2, rw0.publicKey, "random"⟩,
        hm2, hrw, by rw [hE]; exact hres, rfl, rfl, rfl, rfl, rfl⟩
    · right; right
      exact ⟨hhd, hfb, by rw [hE]; exact h5, by rw [hE]; exact hs⟩

/-- Witness for C3 (if its implicit case hypotheses are counted): the
trichotomy instantiated at a provider whose HD derivation succeeds. -/
theorem generateEth_trichotomy_witness :
    (HdOk ⟨.ok "mn", fun _ => .ok ⟨"a", "k", "p"⟩, .ok "mn2", .ok ⟨"a2", "k2", "p2"⟩⟩ ∧
      ∃ d, (generateEthHandler
          ⟨.ok "mn", fun _ => .ok ⟨"a", "k", "p"⟩, .ok "mn2", .ok ⟨"a2", "k2", "p2"⟩⟩).fst =
          ⟨200, .ok d⟩ ∧ d.derivationPath = stdDerivationPath) ∨
    (¬ HdOk ⟨.ok "mn", fun _ => .ok ⟨"a", "k", "p"⟩, .ok "mn2", .ok ⟨"a2", "k2", "p2"⟩⟩ ∧
      ∃ m2 rw d,
        (⟨.ok "mn", fun _ => .ok ⟨"a", "k", "p"⟩, .ok "mn2", .ok ⟨"a2", "k2", "p2"⟩⟩ :
          GenProvider).mnemonic2 = .ok m2 ∧
        (⟨.ok "mn", fun _ => .ok ⟨"a", "k", "p"⟩, .ok "mn2", .ok ⟨"a2", "k2", "p2"⟩⟩ :
          GenProvider).randomWallet = .ok rw ∧
        (generateEthHandler
          ⟨.ok "mn", fun _ => .ok ⟨"a", "k", "p"⟩, .ok "mn2", .ok ⟨"a2", "k2", "p2"⟩⟩).fst =
          ⟨200, .ok d⟩ ∧ d.derivationPath = "random" ∧
        d.address = rw.address ∧ d.privateKey = rw.privateKey ∧
        d.publicKey = rw.publicKey ∧ d.mnemonic = m2) ∨
    (¬ HdOk ⟨.ok "mn", fun _ => .ok ⟨"a", "k", "p"⟩, .ok "mn2", .ok ⟨"a2", "k2", "p2"⟩⟩ ∧
      ¬ FallbackOk ⟨.ok "mn", fun _ => .ok ⟨"a", "k", "p"⟩, .ok "mn2", .ok ⟨"a2", "k2", "p2"⟩⟩ ∧
      (generateEthHandler
        ⟨.ok "mn", fun _ => .ok ⟨"a", "k", "p"⟩, .ok "mn2", .ok ⟨"a2", "k2", "p2"⟩⟩).fst.status = 500 ∧
      (generateEthHandler
        ⟨.ok "mn", fun _ => .ok ⟨"a", "k", "p"⟩, .ok "mn2", .ok ⟨"a2", "k2", "p2"⟩⟩).fst.success = false) :=
  generateEth_trichotomy _

/-- A lowercase hexadecimal digit character. -/
def isLowerHexDigit (c : Char) : Bool :=
  decide ((48 ≤ c.toNat ∧ c.toNat ≤ 57) ∨ (97 ≤ c.toNat ∧ c.toNat ≤ 102))

/-- Every character of the string is a lowercase hex digit. -/
def isLowerHexStr (s : String) : Bool := s.toList.all isLowerHexDigit

theorem strLength_mk (l : List Char) : (String.mk l).length = l.length := rfl

theorem strToList_mk (l : List Char) : (String.mk l).toList = l := rfl

theorem hexDigitChar_lower : ∀ n < 16, isLowerHexDigit (hexDigitChar n) = true := by decide

theorem hexEncodeChars_length (bs : List Nat) :
    (hexEncodeChars bs).length = 2 * bs.length := by
  induction bs with
  | nil => rfl
  | cons b bs ih =>
    simp only [hexEncodeChars, List.length_cons, ih]
    omega

theorem hexEncodeChars_lower (bs : List Nat) :
    (hexEncodeChars bs).all isLowerHexDigit = true := by
  induction bs with
  | nil => rfl
  | cons b bs ih =>
    have h1 : b % 256 / 16 < 16 := by
      have hb : b % 256 < 256 := Nat.mod_lt _ (by decide)
      exact (Nat.div_lt_iff_lt_mul (by decide)).mpr (by omega)
    have h2 : b % 16 < 16 := Nat.mod_lt _ (by decide)
    simp [hexEncodeChars, List.all_cons, ih,
      hexDigitChar_lower _ h1, hexDigitChar_lower _ h2]

/-- C4: a successful `/generate-sui` response returns, alongside the keypair's
address and public key, a `privateKey` that is the hex encoding of the first
32 secret-key bytes — 64 lowercase hexadecimal characters. -/
theorem generateSui_privateKey (gen : Except String SuiKeypair) (kp : SuiKeypair)
    (hgen : gen = .ok kp) (hlen : 32 ≤ kp.secretKeyBytes.length) :
    ∃ d : GenSuiData, (generateSuiHandler gen).fst = ⟨200, .ok d⟩ ∧
      d.privateKey = hexEncode (kp.secretKeyBytes.take 32) ∧
      d.privateKey.length = 64 ∧ isLowerHexStr d.privateKey = true ∧
      d.address = kp.address ∧ d.publicKey = kp.pubKeyB64 := by
  subst hgen
  refine ⟨⟨kp.address, hexEncode (kp.secretKeyBytes.take 32), kp.pubKeyB64, "Ed25519"⟩,
    rfl, rfl, ?_, ?_, rfl, rfl⟩
  · show (hexEncode (kp.secretKeyBytes.take 32)).length = 64
    unfold hexEncode
    rw [strLength_mk, hexEncodeChars_length, List.length_take]
    omega
  · show isLowerHexStr (hexEncode (kp.secretKeyBytes.take 32)) = true
    unfold isLowerHexStr hexEncode
    rw [strToList_mk]
    exact hexEncodeChars_lower _

/-- Witness for C4 at a concrete 64-byte secret key. -/
theorem generateSui_privateKey_witness :
    ∃ d : GenSuiData,
      (generateSuiHandler (.ok ⟨List.replicate 64 171, "0xS", "p"⟩)).fst = ⟨200, .ok d⟩ ∧
      d.privateKey =
        hexEncode ((SuiKeypair.secretKeyBytes ⟨List.replicate 64 171, "0xS", "p"⟩).take 32) ∧
      d.privateKey.length = 64 ∧ isLowerHexStr d.privateKey = true ∧
      d.address = SuiKeypair.address ⟨List.replicate 64 171, "0xS", "p"⟩ ∧
      d.publicKey = SuiKeypair.pubKeyB64 ⟨List.replicate 64 171, "0xS", "p"⟩ :=
  generateSui_privateKey _ ⟨List.replicate 64 171, "0xS", "p"⟩ rfl (by decide)

/-- C5 counterexample: `/sign` invokes the wallet-construction capability on
the key `zz`, whose length (2) matches neither scheme and whose characters are
not hex digits — no length or charset check precedes the call. -/
theorem sign_calls_capability_unvalidated :
    CapCall.mkWallet "zz" ∈ (signHandler toyProvider (some "zz") (some "m")).snd ∧
    "zz".length ≠ 64 ∧ "zz".length ≠ 66 ∧ isLowerHexStr "zz" = false := by
  decide

/-- C5 (amended): presence is checked before any capability call in all three
key-accepting handlers; `/eth-key-to-wallet` and `/sui-key-to-address`
additionally check the (normalized resp. stripped) length before their
capability call; no charset check is made, and `/sign` makes its capability
call with no format validation at all. -/
theorem key_validation_before_call (Pe : EthProvider) (Ps : SuiProvider)
    (pk key message : Option String) :
    ((ethKeyToWalletHandler Pe pk).snd ≠ [] →
      (normalizeEthKey (getStr pk)).length = 66) ∧
    ((suiKeyToAddressHandler Ps pk).snd ≠ [] →
      (replaceFirstOx (getStr pk)).length = 64) ∧
    (truthy key = false ∨ truthy message = false →
      (signHandler Pe key message).snd = []) ∧
    (truthy pk = false →
      (ethKeyToWalletHandler Pe pk).snd = [] ∧
      (suiKeyToAddressHandler Ps pk).snd = []) := by
  refine ⟨?_, ?_, ?_, ?_⟩
  · intro h
    simp only [ethKeyToWalletHandler] at h
    split at h
    · simp at h
    · split at h
      · simp at h
      · rename_i hlen
        omega
  · intro h
    simp only [suiKeyToAddressHandler] at h
    split at h
    · simp at h
    · split at h
      · simp at h
      · rename_i hlen
        omega
  · intro h
    unfold signHandler
    rcases h with h | h <;> simp [h]
  · intro h
    constructor <;> simp [ethKeyToWalletHandler, suiKeyToAddressHandler, h]

/-- Witness for C5 (amended) at concrete keys. -/
theorem key_validation_before_call_witness :
    (normalizeEthKey (getStr (some (String.mk (List.replicate 64 'a'))))).length = 66 ∧
    (replaceFirstOx (getStr (some (String.mk (List.replicate 64 'a'))))).length = 64 ∧
    (signHandler toyProvider none (some "m")).snd = [] ∧
    ((ethKeyToWalletHandler toyProvider none).snd = [] ∧
     (suiKeyToAddressHandler toySuiProvider none).snd = []) :=
  ⟨(key_validation_before_call toyProvider toySuiProvider
      (some (String.mk (List.replicate 64 'a'))) none (some "m")).1 (by decide),
   (key_validation_before_call toyProvider toySuiProvider
      (some (String.mk (List.replicate 64 'a'))) none (some "m")).2.1 (by decide),
   (key_validation_before_call toyProvider toySuiProvider
      (some (String.mk (List.replicate 64 'a'))) none (some "m")).2.2.1 (Or.inl (by decide)),
   (key_validation_before_call toyProvider toySuiProvider none none none).2.2.2 (by decide)⟩

/-- C6 counterexample: the legacy `/sign` server of src/main.js puts the
underlying exception message (`err.message`) into the `details` field of its
500 response body, so the error body is not a fixed constant and the
exception detail reaches the caller. -/
theorem mainSign_leaks_exception_detail :
    (mainSignHandler failProvider (some "k") (some "m")).body =
      .error ⟨"Invalid key or signing error", some "secret-detail"⟩ ∧
    mainSignHandler failProvider (some "k") (some "m") ≠
      mainSignHandler failProvider2 (some "k") (some "m") := by
  decide

theorem ethFallback_error_fixed (G : GenProvider) (tr : List CapCall) (e : String)
    (he : (ethFallback G tr).fst.body = .error e) : e = genEthErr := by
  unfold ethFallback at he
  split at he
  · simp at he
    exact he.symm
  · split at he
    · simp at he
      exact he.symm
    · simp at he

/-- C6 (amended): every error body produced by the src/index.js handlers is
one of the fixed constant strings of that handler, whatever the provider, the
input, or the exception message — the exception detail never reaches an
index.js response body.  (The legacy src/main.js `/sign` server violates
this: see the counterexample.) -/
theorem index_error_strings_fixed (Pe : EthProvider) (Ps : SuiProvider) (G : GenProvider)
    (gen : Except String SuiKeypair) (key message signature pk : Option String) :
    (∀ e, (signHandler Pe key message).fst.body = .error e →
      e = signReqErr ∨ e = signErr) ∧
    (∀ e, (verifyHandler Pe message signature).fst.body = .error e →
      e = verifyReqErr ∨ e = verifyErr) ∧
    (∀ e, (generateEthHandler G).fst.body = .error e → e = genEthErr) ∧
    (∀ e, (generateSuiHandler gen).fst.body = .error e → e = genSuiErr) ∧
    (∀ e, (ethKeyToWalletHandler Pe pk).fst.body = .error e →
      e = keyReqErr ∨ e = ethKeyLenErr ∨ e = ethConvErr) ∧
    (∀ e, (suiKeyToAddressHandler Ps pk).fst.body = .error e →
      e = keyReqErr ∨ e = suiKeyLenErr ∨ e = suiConvErr) := by
  refine ⟨?_, ?_, ?_, ?_, ?_, ?_⟩
  · intro e he
    unfold signHandler at he
    split at he
    · simp at he
      exact Or.inl he.symm
    · split at he
      · simp at he
        exact Or.inr he.symm
      · split at he
        · simp at he
          exact Or.inr he.symm
        · simp at he
  · intro e he
    unfold verifyHandler at he
    split at he
    · simp at he
      exact Or.inl he.symm
    · split at he
      · simp at he
        exact Or.inr he.symm
      · simp at he
  · intro e he
    unfold generateEthHandler at he
    split at he
    · exact ethFallback_error_fixed _ _ _ he
    · split at he
      · exact ethFallback_error_fixed _ _ _ he
      · simp at he
  · intro e he
    unfold generateSuiHandler at he
    split at he
    · simp at he
      exact he.symm
    · simp at he
  · intro e he
    simp only [ethKeyToWalletHandler] at he
    split at he
    · simp at he
      exact Or.inl he.symm
    · split at he
      · simp at he
        exact Or.inr (Or.inl he.symm)
      · split at he
        · simp at he
          exact Or.inr (Or.inr he.symm)
        · split at he
          · simp at he
            exact Or.inr (Or.inr he.symm)
          · simp at he
  · intro e he
    simp only [suiKeyToAddressHandler] at he
    split at he
    · simp at he
      exact Or.inl he.symm
    · split at he
      · simp at he
        exact Or.inr (Or.inl he.symm)
      · split at he
        · simp at he
          exact Or.inr (Or.inr he.symm)
        · simp at he

/-- Witness for C6 (amended): the `/sign` handler's 500 error string at the
always-failing provider is the fixed constant. -/
theorem index_error_strings_fixed_witness :
    signErr = signReqErr ∨ signErr = signErr :=
  (index_error_strings_fixed failProvider toySuiProvider
      ⟨.ok "m", fun _ => .ok ⟨"a", "k", "p"⟩, .ok "m2", .ok ⟨"a2", "k2", "p2"⟩⟩
      (.ok ⟨[], "a", "p"⟩) (some "k") (some "m") (some "s") (some "p")).1
    signErr (by decide)

theorem ethKeyToWallet_unfold (P : EthProvider) (pk : String) (hpk : pk ≠ "") :
    ethKeyToWalletHandler P (some pk) =
      (if (normalizeEthKey pk).length ≠ 66 then (⟨400, .error ethKeyLenErr⟩, [])
       else
        match P.mkWallet (normalizeEthKey pk) with
        | .error _ => (⟨500, .error ethConvErr⟩, [.mkWallet (normalizeEthKey pk)])
        | .ok w =>
          match P.computePublicKey (normalizeEthKey pk) with
          | .error _ =>
            (⟨500, .error ethConvErr⟩,
             [.mkWallet (normalizeEthKey pk), .computePubKey (normalizeEthKey pk)])
          | .ok cpk =>
            (⟨200, .ok ⟨w.address, normalizeEthKey pk, w.publicKey, cpk⟩⟩,
             [.mkWallet (normalizeEthKey pk), .computePubKey (normalizeEthKey pk)])) := by
  unfold ethKeyToWalletHandler
  simp [truthy, bne, hpk, getStr]

/-- C7: `/eth-key-to-wallet` on a present key normalizes it by prefixing `0x`
when absent, answers 400 with `success:false` exactly when the normalized
length differs from 66, and otherwise calls the capability with the
normalized key and echoes it in the success payload. -/
theorem ethKeyToWallet_norm_iff (P : EthProvider) (pk : String) (hpk : pk ≠ "") :
    ((ethKeyToWalletHandler P (some pk)).fst.status = 400 ↔
      (normalizeEthKey pk).length ≠ 66) ∧
    ((normalizeEthKey pk).length ≠ 66 →
      ethKeyToWalletHandler P (some pk) = (⟨400, .error ethKeyLenErr⟩, []) ∧
      (ethKeyToWalletHandler P (some pk)).fst.success = false) ∧
    (∀ d, (ethKeyToWalletHandler P (some pk)).fst.body = .ok d →
      d.privateKey = normalizeEthKey pk) := by
  rw [ethKeyToWallet_unfold P pk hpk]
  by_cases hlen : (normalizeEthKey pk).length = 66
  · have hlen' : ¬ ((normalizeEthKey pk).length ≠ 66) := by omega
    refine ⟨?_, fun hc => absurd hlen hc, ?_⟩
    · simp only [if_neg hlen']
      cases hw : P.mkWallet (normalizeEthKey pk) with
      | error e => simp [hlen]
      | ok w =>
        cases hc : P.computePublicKey (normalizeEthKey pk) with
        | error e => simp [hlen]
        | ok cpk => simp [hlen]
    · intro d hd
      simp only [if_neg hlen'] at hd
      cases hw : P.mkWallet (normalizeEthKey pk) with
      | error e => rw [hw] at hd; simp at hd
      | ok w =>
        rw [hw] at hd
        dsimp only at hd
        cases hc : P.computePublicKey (normalizeEthKey pk) with
        | error e => rw [hc] at hd; simp at hd
        | ok cpk =>
          rw [hc] at hd
          dsimp only at hd
          injection hd with hd
          subst hd
          rfl
  · have hlen' : (normalizeEthKey pk).length ≠ 66 := hlen
    refine ⟨?_, fun _ => ⟨?_, ?_⟩, ?_⟩
    · simp [if_pos hlen', hlen']
    · simp [if_pos hlen']
    · simp [if_pos hlen', ApiResponse.success]
    · intro d hd
      rw [if_pos hlen'] at hd
      simp at hd

/-- Witness for C7: a 65-character key normalizes to 67 characters and is
rejected with the 400 length error. -/
theorem ethKeyToWallet_norm_iff_witness :
    ethKeyToWalletHandler toyProvider (some (String.mk (List.replicate 65 'a'))) =
      (⟨400, .error ethKeyLenErr⟩, []) ∧
    (ethKeyToWalletHandler toyProvider
      (some (String.mk (List.replicate 65 'a')))).fst.success = false :=
  (ethKeyToWallet_norm_iff toyProvider (String.mk (List.replicate 65 'a'))
    (by decide)).2.1 (by decide)

theorem suiKeyToAddress_unfold (P : SuiProvider) (pk : String) (hpk : pk ≠ "") :
    suiKeyToAddressHandler P (some pk) =
      (if (replaceFirstOx pk).length ≠ 64 then (⟨400, .error suiKeyLenErr⟩, [])
       else
        match P.fromSecretKey (hexDecodeNode (replaceFirstOx pk)) with
        | .error _ =>
          (⟨500, .error suiConvErr⟩, [.edFromSecretKey (hexDecodeNode (replaceFirstOx pk))])
        | .ok kp =>
          (⟨200, .ok ⟨kp.address, kp.pubKeyB64, replaceFirstOx pk, "Ed25519"⟩⟩,
           [.edFromSecretKey (hexDecodeNode (replaceFirstOx pk))])) := by
  unfold suiKeyToAddressHandler
  simp [truthy, bne, hpk, getStr]

/-- C8 (amended): `/sui-key-to-address` on a present key removes the first
occurrence of the substring `0x` anywhere in the key (JS
`String.replace('0x','')` — not only a leading prefix), answers 400 with
`success:false` exactly when the resulting length differs from 64, and
otherwise echoes the stripped key in the success payload. -/
theorem suiKeyToAddress_replace_iff (P : SuiProvider) (pk : String) (hpk : pk ≠ "") :
    ((suiKeyToAddressHandler P (some pk)).fst.status = 400 ↔
      (replaceFirstOx pk).length ≠ 64) ∧
    ((replaceFirstOx pk).length ≠ 64 →
      suiKeyToAddressHandler P (some pk) = (⟨400, .error suiKeyLenErr⟩, []) ∧
      (suiKeyToAddressHandler P (some pk)).fst.success = false) ∧
    (∀ d, (suiKeyToAddressHandler P (some pk)).fst.body = .ok d →
      d.privateKey = replaceFirstOx pk) := by
  rw [suiKeyToAddress_unfold P pk hpk]
  by_cases hlen : (replaceFirstOx pk).length = 64
  · have hlen' : ¬ ((replaceFirstOx pk).length ≠ 64) := by omega
    refine ⟨?_, fun hc => absurd hlen hc, ?_⟩
    · simp only [if_neg hlen']
      cases hk : P.fromSecretKey (hexDecodeNode (replaceFirstOx pk)) with
      | error e => simp [hlen]
      | ok kp => simp [hlen]
    · intro d hd
      simp only [if_neg hlen'] at hd
      cases hk : P.fromSecretKey (hexDecodeNode (replaceFirstOx pk)) with
      | error e => rw [hk] at hd; simp at hd
      | ok kp =>
        rw [hk] at hd
        dsimp only at hd
        injection hd with hd
        subst hd
        rfl
  · have hlen' : (replaceFirstOx pk).length ≠ 64 := hlen
    refine ⟨?_, fun _ => ⟨?_, ?_⟩, ?_⟩
    · simp [if_pos hlen', hlen']
    · simp [if_pos hlen']
    · simp [if_pos hlen', ApiResponse.success]
    · intro d hd
      rw [if_pos hlen'] at hd
      simp at hd

/-- Witness for C8 (amended): `0x` followed by 63 characters strips to 63
characters and is rejected with the 400 length error. -/
theorem suiKeyToAddress_replace_iff_witness :
    suiKeyToAddressHandler toySuiProvider
      (some ("0x" ++ String.mk (List.replicate 63 'a'))) =
      (⟨400, .error suiKeyLenErr⟩, []) ∧
    (suiKeyToAddressHandler toySuiProvider
      (some ("0x" ++ String.mk (List.replicate 63 'a')))).fst.success = false :=
  (suiKeyToAddress_replace_iff toySuiProvider ("0x" ++ String.mk (List.replicate 63 'a'))
    (by decide)).2.1 (by decide)

/-- Modelled from the spec: "`privateKey`, with any `0x` prefix stripped
before validation" — removal of a leading `0x` prefix only.  Compared against
`replaceFirstOx`, the behaviour embedded from the source. -/
def specStripLeadingOx (s : String) : String :=
  if startsWithOx s then String.mk (s.toList.drop 2) else s

/-- A 66-character key with an interior `0x` and no leading `0x`. -/
def c8Input : String := "ab0x" ++ String.mk (List.replicate 62 'c')

/-- C8 counterexample: on `c8Input` the claimed leading-prefix-strip leaves 66
characters (≠ 64), so the claim demands a 400 response; the code removes the
interior `0x`, obtains 64 characters, and proceeds to a 200 response. -/
theorem suiKey_interior_ox_counterexample :
    (specStripLeadingOx c8Input).length ≠ 64 ∧
    (suiKeyToAddressHandler toySuiProvider (some c8Input)).fst.status = 200 ∧
    (replaceFirstOx c8Input).length = 64 ∧
    specStripLeadingOx c8Input ≠ replaceFirstOx c8Input := by
  decide

/-- C9: `/sign` with an absent key or message parameter answers 400 with
`success:false` and the fixed error string, making no capability call; with
both present, a failure of wallet construction or of signing answers 500 with
`success:false`. -/
theorem sign_error_paths (P : EthProvider) (key message : Option String) :
    (key = none ∨ message = none →
      (signHandler P key message).fst = ⟨400, .error signReqErr⟩ ∧
      (signHandler P key message).fst.success = false ∧
      (signHandler P key message).snd = []) ∧
    (∀ e, truthy key = true → truthy message = true →
      P.mkWallet (getStr key) = .error e →
      (signHandler P key message).fst = ⟨500, .error signErr⟩ ∧
      (signHandler P key message).fst.success = false) ∧
    (∀ w e, truthy key = true → truthy message = true →
      P.mkWallet (getStr key) = .ok w → w.sign (getStr message) = .error e →
      (signHandler P key message).fst = ⟨500, .error signErr⟩ ∧
      (signHandler P key message).fst.success = false) := by
  refine ⟨?_, ?_, ?_⟩
  · intro h
    have hg : (!(truthy key) || !(truthy message)) = true := by
      rcases h with h | h <;> subst h <;> simp [truthy]
    unfold signHandler
    simp [hg, ApiResponse.success]
  · intro e hk hm he
    unfold signHandler
    simp [hk, hm, he, ApiResponse.success]
  · intro w e hk hm hw hs
    unfold signHandler
    simp [hk, hm, hw, hs, ApiResponse.success]

/-- Witness for C9: missing message, and a capability failure. -/
theorem sign_error_paths_witness :
    ((signHandler failProvider (some "k") none).fst = ⟨400, .error signReqErr⟩ ∧
     (signHandler failProvider (some "k") none).fst.success = false ∧
     (signHandler failProvider (some "k") none).snd = []) ∧
    ((signHandler failProvider (some "k") (some "m")).fst = ⟨500, .error signErr⟩ ∧
     (signHandler failProvider (some "k") (some "m")).fst.success = false) :=
  ⟨(sign_error_paths failProvider (some "k") none).1 (Or.inr rfl),
   (sign_error_paths failProvider (some "k") (some "m")).2.1 "secret-detail"
     (by decide) (by decide) rfl⟩

/-- C10: for every parameter-taking handler, a required parameter supplied as
the empty string behaves exactly like an absent parameter: the whole outcome
(response and capability-call trace) coincides, and is a 400 response with
`success:false` and an empty trace. -/
theorem empty_param_like_absent (Pe : EthProvider) (Ps : SuiProvider)
    (key message signature : Option String) :
    (signHandler Pe (some "") message = signHandler Pe none message ∧
     signHandler Pe key (some "") = signHandler Pe key none ∧
     (signHandler Pe (some "") message).fst.status = 400 ∧
     (signHandler Pe (some "") message).fst.success = false ∧
     (signHandler Pe (some "") message).snd = [] ∧
     (signHandler Pe key (some "")).fst.status = 400 ∧
     (signHandler Pe key (some "")).fst.success = false ∧
     (signHandler Pe key (some "")).snd = []) ∧
    (verifyHandler Pe (some "") signature = verifyHandler Pe none signature ∧
     verifyHandler Pe message (some "") = verifyHandler Pe message none ∧
     (verifyHandler Pe (some "") signature).fst.status = 400 ∧
     (verifyHandler Pe (some "") signature).fst.success = false ∧
     (verifyHandler Pe (some "") signature).snd = [] ∧
     (verifyHandler Pe message (some "")).fst.status = 400 ∧
     (verifyHandler Pe message (some "")).fst.success = false ∧
     (verifyHandler Pe message (some "")).snd = []) ∧
    (ethKeyToWalletHandler Pe (some "") = ethKeyToWalletHandler Pe none ∧
     (ethKeyToWalletHandler Pe (some "")).fst.status = 400 ∧
     (ethKeyToWalletHandler Pe (some "")).fst.success = false ∧
     (ethKeyToWalletHandler Pe (some "")).snd = []) ∧
    (suiKeyToAddressHandler Ps (some "") = suiKeyToAddressHandler Ps none ∧
     (suiKeyToAddressHandler Ps (some "")).fst.status = 400 ∧
     (suiKeyToAddressHandler Ps (some "")).fst.success = false ∧
     (suiKeyToAddressHandler Ps (some "")).snd = []) := by
  refine ⟨⟨?_, ?_, ?_, ?_, ?_, ?_, ?_, ?_⟩, ⟨?_, ?_, ?_, ?_, ?_, ?_, ?_, ?_⟩,
    ⟨?_, ?_, ?_, ?_⟩, ⟨?_, ?_, ?_, ?_⟩⟩ <;>
    simp [signHandler, verifyHandler, ethKeyToWalletHandler, suiKeyToAddressHandler,
      truthy, ApiResponse.success]

/-- Witness for C10 at concrete providers. -/
theorem empty_param_like_absent_witness :
    signHandler toyProvider (some "") (some "m") = signHandler toyProvider none (some "m") ∧
    suiKeyToAddressHandler toySuiProvider (some "") = suiKeyToAddressHandler toySuiProvider none :=
  ⟨(empty_param_like_absent toyProvider toySuiProvider none (some "m") none).1.1,
   (empty_param_like_absent toyProvider toySuiProvider none (some "m") none).2.2.2.1⟩
